import Mathlib

/-!
Verification development for the ChilLee state engine
(src/src/state/manager.py and src/src/config.py).

The Python module defines an immutable `State` dataclass with pure
clamped transition functions (`with_stress_decrease`, `with_boss_increase`,
`with_boss_decrease`, `with_stress_increase`), a probabilistic decision
helper `should_boss_alert_increase`, and a lock-serialized `StateManager`
whose operations (`take_break`, `get_state`, `reset`) and two background
loops each run as one atomic critical section.

Embedding conventions:
- Python ints are `Int`.
- `time.time()` timestamps are abstract `Int` values; wherever the Python
  code calls `time.time()`, the embedded function takes an explicit
  `now : Int` parameter.
- `random.randint(1, 100)` is modelled by an explicit `draw : Int`
  parameter, constrained to `1 ≤ draw ≤ 100` in theorems.
- Each lock-protected critical section is one atomic step; concurrency is
  modelled as an arbitrary interleaving (a list) of such atomic steps.
- The `time.sleep` inside `take_break` is recorded as a `delay` field of
  the result rather than performed.
-/

namespace ChilLee

/-- Constant from src/src/config.py: `STRESS_MIN = 0`. -/
def STRESS_MIN : Int := 0

/-- Constant from src/src/config.py: `STRESS_MAX = 100`. -/
def STRESS_MAX : Int := 100

/-- Constant from src/src/config.py: `BOSS_ALERT_MIN = 0`. -/
def BOSS_ALERT_MIN : Int := 0

/-- Constant from src/src/config.py: `BOSS_ALERT_MAX = 5`. -/
def BOSS_ALERT_MAX : Int := 5

/-- Constant from src/src/config.py: `STRESS_INCREASE_INTERVAL = 60` seconds. -/
def STRESS_INCREASE_INTERVAL : Int := 60

/-- Constant from src/src/config.py: `BOSS_ALERT_DELAY = 20` seconds. -/
def BOSS_ALERT_DELAY : Int := 20

/-- Immutable state object, from the frozen dataclass `State` in
src/src/state/manager.py: stress level, boss alert level, and the
timestamp of last activity (modelled as `Int`). -/
structure State where
  stress_level : Int
  boss_alert_level : Int
  last_activity_time : Int
deriving Repr, DecidableEq

/-- `State.with_stress_decrease` from src/src/state/manager.py:
`new_stress = max(STRESS_MIN, self.stress_level - decrease)`, boss alert
carried over, `last_activity_time = time.time()` (the explicit `now`). -/
def State.with_stress_decrease (s : State) (decrease : Int) (now : Int) : State :=
  { stress_level := max STRESS_MIN (s.stress_level - decrease)
    boss_alert_level := s.boss_alert_level
    last_activity_time := now }

/-- `State.with_boss_increase` from src/src/state/manager.py:
`new_boss = min(BOSS_ALERT_MAX, self.boss_alert_level + 1)`, stress and
timestamp carried over. -/
def State.with_boss_increase (s : State) : State :=
  { stress_level := s.stress_level
    boss_alert_level := min BOSS_ALERT_MAX (s.boss_alert_level + 1)
    last_activity_time := s.last_activity_time }

/-- `State.with_boss_decrease` from src/src/state/manager.py:
`new_boss = max(BOSS_ALERT_MIN, self.boss_alert_level - 1)`, stress and
timestamp carried over. -/
def State.with_boss_decrease (s : State) : State :=
  { stress_level := s.stress_level
    boss_alert_level := max BOSS_ALERT_MIN (s.boss_alert_level - 1)
    last_activity_time := s.last_activity_time }

/-- `State.with_stress_increase` from src/src/state/manager.py:
`new_stress = min(STRESS_MAX, self.stress_level + 1)`, boss alert and
timestamp carried over. -/
def State.with_stress_increase (s : State) : State :=
  { stress_level := min STRESS_MAX (s.stress_level + 1)
    boss_alert_level := s.boss_alert_level
    last_activity_time := s.last_activity_time }

/-- `should_boss_alert_increase` from src/src/state/manager.py:
`random.randint(1, 100) <= alertness_probability`, with the random draw
made an explicit parameter. -/
def should_boss_alert_increase (alertness_probability : Int) (draw : Int) : Bool :=
  draw ≤ alertness_probability

/-- Result of one `StateManager.take_break` critical section: seconds
slept at step 2 (the delay mechanism), the returned
`(stress_level, boss_alert_level)` pair, and the installed state. -/
structure BreakResult where
  delay : Int
  output : Int × Int
  state : State
deriving Repr, DecidableEq

/-- `StateManager.take_break` from src/src/state/manager.py as one atomic
critical section. Step 2: if `boss_alert_level == BOSS_ALERT_MAX`, sleep
`BOSS_ALERT_DELAY` (recorded in `delay`); step 3: the probabilistic
decision (`draw` models the random integer, `alertness` is the configured
`config.boss_alertness`); step 4: decrease stress; step 5: conditionally
increase boss alert; step 6: install; step 7: return the counters. -/
def take_break (s : State) (stress_decrease : Int) (alertness : Int)
    (draw : Int) (now : Int) : BreakResult :=
  let delay : Int := if s.boss_alert_level = BOSS_ALERT_MAX then BOSS_ALERT_DELAY else 0
  let boss_increase := should_boss_alert_increase alertness draw
  let new_state := s.with_stress_decrease stress_decrease now
  let new_state := if boss_increase then new_state.with_boss_increase else new_state
  { delay := delay
    output := (new_state.stress_level, new_state.boss_alert_level)
    state := new_state }

/-- Result of one `StateManager.get_state` critical section: seconds
slept (the body never sleeps), the returned pair, and the state left
behind (the body never assigns `self._state`). -/
structure SnapshotResult where
  delay : Int
  output : Int × Int
  state : State
deriving Repr, DecidableEq

/-- `StateManager.get_state` from src/src/state/manager.py: under the
lock, return `(stress_level, boss_alert_level)`; the body contains no
sleep and no assignment to the state. -/
def get_state (s : State) : SnapshotResult :=
  { delay := 0
    output := (s.stress_level, s.boss_alert_level)
    state := s }

/-- The initial state installed by `StateManager.__init__`:
stress 50, boss alert 0, `last_activity_time = time.time()`. -/
def initial_state (now : Int) : State :=
  { stress_level := 50, boss_alert_level := 0, last_activity_time := now }

/-- `StateManager.reset` from src/src/state/manager.py: reinstalls
stress 50, boss alert 0, current time. -/
def reset (now : Int) : State :=
  { stress_level := 50, boss_alert_level := 0, last_activity_time := now }

/-- One iteration of the `_auto_increase_stress` background loop body
(after its sleep): replace the state by `with_stress_increase`. -/
def auto_increase_stress_step (s : State) : State :=
  s.with_stress_increase

/-- One iteration of the `_auto_decrease_boss_alert` background loop body
(after its sleep): replace the state by `with_boss_decrease`. -/
def auto_decrease_boss_alert_step (s : State) : State :=
  s.with_boss_decrease

/-- `Config._validate_alertness` from src/src/config.py:
`max(0, min(100, value))`. -/
def validate_alertness (value : Int) : Int :=
  max 0 (min 100 value)

/-- The operations that replace the manager's state: a `take_break`
critical section (with its caller-supplied decrease and the ambient
alertness, draw and clock values), one tick of either background loop,
and `reset`. `get_state` is omitted here because its critical section
does not write the state. -/
inductive Op where
  | takeBreak (decrease alertness draw now : Int)
  | stressDecay
  | alertDecay
  | resetOp (now : Int)
deriving Repr, DecidableEq

/-- Effect of one operation's critical section on the state. -/
def applyOp (s : State) (op : Op) : State :=
  match op with
  | Op.takeBreak decrease alertness draw now =>
      (take_break s decrease alertness draw now).state
  | Op.stressDecay => auto_increase_stress_step s
  | Op.alertDecay => auto_decrease_boss_alert_step s
  | Op.resetOp now => reset now

/-- Run a finite sequence of critical sections, left to right. -/
def runOps (s : State) : List Op → State
  | [] => s
  | op :: rest => runOps (applyOp s op) rest

/-- The documented bounds: `0 ≤ stress_level ≤ 100` and
`0 ≤ boss_alert_level ≤ 5`. -/
def StateInBounds (s : State) : Prop :=
  0 ≤ s.stress_level ∧ s.stress_level ≤ 100 ∧
    0 ≤ s.boss_alert_level ∧ s.boss_alert_level ≤ 5

instance : DecidablePred StateInBounds := fun s =>
  inferInstanceAs (Decidable (0 ≤ s.stress_level ∧ s.stress_level ≤ 100 ∧
    0 ≤ s.boss_alert_level ∧ s.boss_alert_level ≤ 5))

/-- An operation sequence respects the `applyBreak` input contract when
every `takeBreak` carries a nonnegative decrease. -/
def OpNonnegDecrease : Op → Prop
  | Op.takeBreak decrease _ _ _ => 0 ≤ decrease
  | _ => True

instance : DecidablePred OpNonnegDecrease := fun op =>
  match op with
  | Op.takeBreak d _ _ _ => inferInstanceAs (Decidable (0 ≤ d))
  | Op.stressDecay => inferInstanceAs (Decidable True)
  | Op.alertDecay => inferInstanceAs (Decidable True)
  | Op.resetOp _ => inferInstanceAs (Decidable True)

/-- Iterated ticks of the `_auto_increase_stress` background loop:
`N` elapsed intervals with no other activity. -/
def auto_increase_iter : Nat → State → State
  | 0, s => s
  | n + 1, s => auto_increase_iter n (auto_increase_stress_step s)

/-- Atomic critical sections contending for the manager's lock in the
atomicity scenario: a `take_break` with decrease 1 and alertness 0
(`draw` and `now` are the ambient random draw and clock at that
acquisition), or a `get_state`. -/
inductive ConcOp where
  | doBreak (draw now : Int)
  | doSnapshot
deriving Repr, DecidableEq

/-- Effect of one critical section of the atomicity scenario on the
state owned by the manager. -/
def concStep (s : State) (op : ConcOp) : State :=
  match op with
  | ConcOp.doBreak draw now => (take_break s 1 0 draw now).state
  | ConcOp.doSnapshot => (get_state s).state

/-- Run an interleaving: the lock serializes the concurrent critical
sections into some list, executed left to right. -/
def concRun (s : State) : List ConcOp → State
  | [] => s
  | op :: rest => concRun (concStep s op) rest

/-- The sequence of pairs returned by the `get_state` calls of an
interleaving, in order. -/
def concObservations (s : State) : List ConcOp → List (Int × Int)
  | [] => []
  | ConcOp.doBreak draw now :: rest =>
      concObservations (take_break s 1 0 draw now).state rest
  | ConcOp.doSnapshot :: rest =>
      (get_state s).output :: concObservations s rest

/-- Number of `take_break` critical sections in an interleaving. -/
def countBreaks : List ConcOp → Nat
  | [] => 0
  | ConcOp.doBreak _ _ :: rest => countBreaks rest + 1
  | ConcOp.doSnapshot :: rest => countBreaks rest

/-- A critical section whose random draw lies in the range of
`random.randint(1, 100)`. -/
def ValidDraw : ConcOp → Prop
  | ConcOp.doBreak draw _ => 1 ≤ draw ∧ draw ≤ 100
  | ConcOp.doSnapshot => True

instance : DecidablePred ValidDraw := fun op =>
  match op with
  | ConcOp.doBreak d _ => inferInstanceAs (Decidable (1 ≤ d ∧ d ≤ 100))
  | ConcOp.doSnapshot => inferInstanceAs (Decidable True)

/-- Modelled from the spec: the snapshots that an interleaving is allowed
to observe. Each `get_state` must see the fully-applied result of the
complete `take_break` mutations that precede it (stress decremented once,
clamped at 0, per completed break; alert still 0), never a partially
applied one. -/
def expectedObservations (stress : Int) : List ConcOp → List (Int × Int)
  | [] => []
  | ConcOp.doBreak _ _ :: rest => expectedObservations (max 0 (stress - 1)) rest
  | ConcOp.doSnapshot :: rest => (stress, 0) :: expectedObservations stress rest

/-! ## Theorems -/

/-- Claim C4: for every state and amount, `with_stress_decrease` yields
stress `max(0, stress - amount)` with the alert level unchanged, and
`with_boss_increase` yields alert `min(5, alert + 1)` with the stress
level unchanged; in particular stress 5 decreased by 50 yields 0, and
alert 5 increased yields 5. -/
theorem C4_transition_saturation :
    (∀ (s : State) (amount now : Int),
        (s.with_stress_decrease amount now).stress_level
            = max 0 (s.stress_level - amount) ∧
        (s.with_stress_decrease amount now).boss_alert_level
            = s.boss_alert_level) ∧
    (∀ s : State,
        s.with_boss_increase.boss_alert_level
            = min 5 (s.boss_alert_level + 1) ∧
        s.with_boss_increase.stress_level = s.stress_level) ∧
    (∀ a t now : Int,
        ((State.mk 5 a t).with_stress_decrease 50 now).stress_level = 0) ∧
    (∀ σ t : Int, (State.mk σ 5 t).with_boss_increase.boss_alert_level = 5) := by
  refine ⟨fun s amount now => ⟨rfl, rfl⟩, fun s => ⟨rfl, rfl⟩, ?_, ?_⟩
  · intro a t now
    simp [State.with_stress_decrease, STRESS_MIN]
  · intro σ t
    simp [State.with_boss_increase, BOSS_ALERT_MAX]

/-- Claim C5: for every draw in the range of `random.randint(1, 100)`,
`should_boss_alert_increase 0` is false, `should_boss_alert_increase 100`
is true, and in general `should_boss_alert_increase p` is true iff the
draw is at most `p`. -/
theorem C5_probability_boundary (draw p : Int)
    (h1 : 1 ≤ draw) (h2 : draw ≤ 100) :
    should_boss_alert_increase 0 draw = false ∧
    should_boss_alert_increase 100 draw = true ∧
    (should_boss_alert_increase p draw = true ↔ draw ≤ p) := by
  refine ⟨?_, ?_, ?_⟩ <;> simp [should_boss_alert_increase] <;> omega

/-- Witness for C5 at draw 42, p 57. -/
theorem C5_probability_boundary_witness :
    should_boss_alert_increase 0 42 = false ∧
    should_boss_alert_increase 100 42 = true ∧
    (should_boss_alert_increase 57 42 = true ↔ (42 : Int) ≤ 57) :=
  C5_probability_boundary 42 57 (by decide) (by decide)

/-- Claim C3: from the initial state (stress 50, alert 0),
`take_break 20` with the escalation decision false (alertness 0, draw 50)
returns (30, 0); then `take_break 40` with the escalation decision true
(alertness 100, draw 1) returns (0, 1), the stress clamping at 0; a
subsequent `get_state` returns (0, 1) and leaves the state unchanged. -/
theorem C3_end_to_end_scenario :
    (take_break (initial_state 0) 20 0 50 1).output = (30, 0) ∧
    (take_break (take_break (initial_state 0) 20 0 50 1).state 40 100 1 2).output
        = (0, 1) ∧
    (get_state (take_break (take_break (initial_state 0) 20 0 50 1).state
        40 100 1 2).state).output = (0, 1) ∧
    (get_state (take_break (take_break (initial_state 0) 20 0 50 1).state
        40 100 1 2).state).state
      = (take_break (take_break (initial_state 0) 20 0 50 1).state
        40 100 1 2).state := by
  decide

/-- Claim C7: the `take_break` critical section sleeps the fixed
`BOSS_ALERT_DELAY` exactly when the alert level at its entry equals
`BOSS_ALERT_MAX`, and sleeps 0 otherwise; the `get_state` critical
section never sleeps and never modifies the state. -/
theorem C7_threshold_delay (s : State) (d alertness draw now : Int) :
    ((take_break s d alertness draw now).delay = BOSS_ALERT_DELAY ↔
        s.boss_alert_level = BOSS_ALERT_MAX) ∧
    ((take_break s d alertness draw now).delay = 0 ↔
        s.boss_alert_level ≠ BOSS_ALERT_MAX) ∧
    (get_state s).delay = 0 ∧
    (get_state s).state = s := by
  unfold take_break get_state BOSS_ALERT_DELAY BOSS_ALERT_MAX
  by_cases h : s.boss_alert_level = 5 <;> simp [h]

/-- Claim C6 as stated is false at this input: a `take_break` decrease of
0 from stress 50 leaves the stress level unchanged, yet the installed
`last_activity_time` is the current clock (7), not the prior value (0). -/
theorem C6_counterexample :
    ((State.mk 50 0 0).with_stress_decrease 0 7).stress_level = 50 ∧
    ((State.mk 50 0 0).with_stress_decrease 0 7).last_activity_time = 7 ∧
    (7 : Int) ≠ 0 := by
  decide

/-- Claim C6 amended: `with_stress_decrease` installs the current clock
as `last_activity_time` on every call, whether or not the stress level
changes; `with_boss_increase`, `with_boss_decrease` and
`with_stress_increase` carry `last_activity_time` forward unchanged. -/
theorem C6_last_activity_frame (s : State) (d now : Int) :
    (s.with_stress_decrease d now).last_activity_time = now ∧
    s.with_boss_increase.last_activity_time = s.last_activity_time ∧
    s.with_boss_decrease.last_activity_time = s.last_activity_time ∧
    s.with_stress_increase.last_activity_time = s.last_activity_time :=
  ⟨rfl, rfl, rfl, rfl⟩

/-- Claim C2: at the failing input (state stress 50, alert 0, amount
-60), `take_break` signals no invalid-argument condition: it succeeds,
returning (110, 0) and installing stress 110, above the documented
maximum of 100 that `with_stress_decrease` promises to maintain. -/
theorem C2_negative_amount_not_rejected :
    (take_break (State.mk 50 0 0) (-60) 0 50 7).output = (110, 0) ∧
    (take_break (State.mk 50 0 0) (-60) 0 50 7).state.stress_level = 110 ∧
    (110 : Int) > 100 := by
  decide

/-- Claim C10: the caller-triggered decrease applies no upper clamp —
for every state and every integer amount the new stress level is
`max(0, stress - amount)` — so `take_break` from stress 50 with amount
-60 succeeds and installs stress 110 > 100. -/
theorem C10_no_upper_clamp :
    (∀ (s : State) (amount now : Int),
        (s.with_stress_decrease amount now).stress_level
            = max 0 (s.stress_level - amount)) ∧
    (take_break (State.mk 50 0 0) (-60) 0 50 7).state.stress_level = 110 ∧
    (110 : Int) > 100 := by
  refine ⟨fun s amount now => rfl, by decide, by decide⟩

/-- One critical section with a nonnegative decrease preserves the
documented bounds. -/
theorem applyOp_preserves_bounds (s : State) (op : Op)
    (hs : StateInBounds s) (hop : OpNonnegDecrease op) :
    StateInBounds (applyOp s op) := by
  obtain ⟨h1, h2, h3, h4⟩ := hs
  cases op with
  | takeBreak d a dr now =>
      simp only [OpNonnegDecrease] at hop
      unfold applyOp take_break
      by_cases h : should_boss_alert_increase a dr <;>
        simp only [h, if_true, if_false, Bool.false_eq_true, ite_false, ite_true] <;>
        simp [StateInBounds, State.with_stress_decrease, State.with_boss_increase,
          STRESS_MIN, BOSS_ALERT_MAX] <;>
        omega
  | stressDecay =>
      unfold applyOp auto_increase_stress_step
      simp [StateInBounds, State.with_stress_increase, STRESS_MAX]
      omega
  | alertDecay =>
      unfold applyOp auto_decrease_boss_alert_step
      simp [StateInBounds, State.with_boss_decrease, BOSS_ALERT_MIN]
      omega
  | resetOp now =>
      unfold applyOp reset
      simp [StateInBounds]

/-- Bounds are preserved along any run of valid critical sections. -/
theorem runOps_preserves_bounds (ops : List Op) :
    ∀ s : State, StateInBounds s → (∀ op ∈ ops, OpNonnegDecrease op) →
      StateInBounds (runOps s ops) := by
  induction ops with
  | nil => intro s hs _; exact hs
  | cons op rest ih =>
      intro s hs h
      have hop := h op (List.mem_cons_self _ _)
      have hrest : ∀ o ∈ rest, OpNonnegDecrease o :=
        fun o ho => h o (List.mem_cons_of_mem _ ho)
      exact ih _ (applyOp_preserves_bounds s op hs hop) hrest

/-- Claim C1: starting from the initial state (stress 50, alert 0),
after any finite sequence of `take_break` critical sections with
nonnegative decreases, background stress-increase ticks, background
alert-decrease ticks, and resets, the state satisfies
`0 ≤ stress_level ≤ 100` and `0 ≤ boss_alert_level ≤ 5` (every
intermediate state is the run of a prefix, so the bound holds after
every operation). -/
theorem C1_bounds_invariant (t0 : Int) (ops : List Op)
    (h : ∀ op ∈ ops, OpNonnegDecrease op) :
    StateInBounds (runOps (initial_state t0) ops) :=
  runOps_preserves_bounds ops (initial_state t0)
    (by simp [initial_state, StateInBounds]) h

/-- Witness for C1 on a concrete five-operation run. -/
theorem C1_bounds_invariant_witness :
    (∀ op ∈ [Op.takeBreak 20 50 30 1, Op.stressDecay, Op.alertDecay,
        Op.resetOp 2, Op.takeBreak 0 100 1 3], OpNonnegDecrease op) ∧
    StateInBounds (runOps (initial_state 0)
        [Op.takeBreak 20 50 30 1, Op.stressDecay, Op.alertDecay,
         Op.resetOp 2, Op.takeBreak 0 100 1 3]) :=
  ⟨by decide, C1_bounds_invariant 0
    [Op.takeBreak 20 50 30 1, Op.stressDecay, Op.alertDecay,
     Op.resetOp 2, Op.takeBreak 0 100 1 3] (by decide)⟩

/-- Iterating the stress auto-increase from any in-bounds stress level
clamps the total at 100 and touches nothing else. -/
theorem auto_increase_iter_spec (N : Nat) :
    ∀ s : State, s.stress_level ≤ 100 →
      (auto_increase_iter N s).stress_level = min 100 (s.stress_level + N) ∧
      (auto_increase_iter N s).boss_alert_level = s.boss_alert_level ∧
      (auto_increase_iter N s).last_activity_time = s.last_activity_time := by
  induction N with
  | zero =>
      intro s hs
      refine ⟨?_, rfl, rfl⟩
      simp [auto_increase_iter]
      omega
  | succ n ih =>
      intro s hs
      have hstep : (auto_increase_stress_step s).stress_level
          = min 100 (s.stress_level + 1) := by
        simp [auto_increase_stress_step, State.with_stress_increase, STRESS_MAX]
      have h := ih (auto_increase_stress_step s) (by rw [hstep]; omega)
      simp only [auto_increase_iter]
      refine ⟨?_, ?_, ?_⟩
      · rw [h.1, hstep]
        push_cast
        omega
      · rw [h.2.1]
        rfl
      · rw [h.2.2]
        rfl

/-- Claim C9: applying the stress-decay-reversal step N times to a state
with stress level 90 yields stress `min(100, 90 + N)`, with the alert
level and the last-activity timestamp unchanged throughout (the state
after any k ≤ N ticks is this statement at k). -/
theorem C9_decay_iteration (N : Nat) (a t : Int) :
    (auto_increase_iter N (State.mk 90 a t)).stress_level
        = min 100 (90 + (N : Int)) ∧
    (auto_increase_iter N (State.mk 90 a t)).boss_alert_level = a ∧
    (auto_increase_iter N (State.mk 90 a t)).last_activity_time = t := by
  have h := auto_increase_iter_spec N (State.mk 90 a t) (by norm_num)
  exact ⟨h.1, h.2.1, h.2.2⟩

/-- With alertness 0 and a draw from `randint(1, 100)`, one `take_break`
of amount 1 decrements the stress (clamped at 0), keeps the alert level,
and stamps the clock. -/
theorem take_break_unit_step (s : State) (draw now : Int) (h : 1 ≤ draw) :
    (take_break s 1 0 draw now).state
      = State.mk (max 0 (s.stress_level - 1)) s.boss_alert_level now := by
  have hesc : should_boss_alert_increase 0 draw = false := by
    simp [should_boss_alert_increase]
    omega
  simp [take_break, hesc, State.with_stress_decrease, STRESS_MIN]

/-- Any interleaving of unit breaks and snapshots: the final stress is
the clamped difference, the alert level stays 0, and every snapshot
observes exactly the fully-applied result of the breaks before it. -/
theorem concRun_spec (ops : List ConcOp) :
    ∀ s : State, (∀ op ∈ ops, ValidDraw op) →
      0 ≤ s.stress_level → s.boss_alert_level = 0 →
      (concRun s ops).stress_level
          = max 0 (s.stress_level - (countBreaks ops : Int)) ∧
      (concRun s ops).boss_alert_level = 0 ∧
      concObservations s ops = expectedObservations s.stress_level ops := by
  induction ops with
  | nil =>
      intro s _ h0 hb
      refine ⟨?_, hb, rfl⟩
      simp [concRun, countBreaks]
      omega
  | cons op rest ih =>
      intro s hv h0 hb
      have hrest : ∀ o ∈ rest, ValidDraw o :=
        fun o ho => hv o (List.mem_cons_of_mem _ ho)
      cases op with
      | doBreak draw now =>
          have hd : ValidDraw (ConcOp.doBreak draw now) :=
            hv _ (List.mem_cons_self _ _)
          obtain ⟨hd1, -⟩ := hd
          have hstep := take_break_unit_step s draw now hd1
          have hs1 : (0 : Int) ≤ max 0 (s.stress_level - 1) := le_max_left _ _
          have h := ih (State.mk (max 0 (s.stress_level - 1))
            s.boss_alert_level now) hrest hs1 hb
          simp only [concRun, concStep, concObservations, countBreaks,
            expectedObservations, hstep]
          refine ⟨?_, h.2.1, h.2.2⟩
          rw [h.1]
          push_cast
          omega
      | doSnapshot =>
          have h := ih s hrest h0 hb
          simp only [concRun, concStep, concObservations, countBreaks,
            expectedObservations, get_state]
          exact ⟨h.1, h.2.1, by rw [hb, h.2.2]⟩

/-- Claim C8: under the lock every critical section is atomic, so a
concurrent execution is some interleaving (list) of the N unit-break
sections and any number of snapshot sections; from stress 100 and alert
0, with escalation probability 0 and draws in [1, 100], every
interleaving ends with stress exactly `max(0, 100 - N)` (no lost
updates), and every interleaved `get_state` observes the fully-applied
result of the complete breaks before it, never a partial mutation. -/
theorem C8_atomicity (ops : List ConcOp) (t : Int)
    (h : ∀ op ∈ ops, ValidDraw op) :
    (concRun (State.mk 100 0 t) ops).stress_level
        = max 0 (100 - (countBreaks ops : Int)) ∧
    (concRun (State.mk 100 0 t) ops).boss_alert_level = 0 ∧
    concObservations (State.mk 100 0 t) ops = expectedObservations 100 ops :=
  concRun_spec ops (State.mk 100 0 t) h (by norm_num) rfl

/-- Witness for C8 on a concrete interleaving of three breaks and two
snapshots. -/
theorem C8_atomicity_witness :
    (∀ op ∈ [ConcOp.doBreak 50 1, ConcOp.doSnapshot, ConcOp.doBreak 7 2,
        ConcOp.doBreak 100 3, ConcOp.doSnapshot], ValidDraw op) ∧
    ((concRun (State.mk 100 0 0) [ConcOp.doBreak 50 1, ConcOp.doSnapshot,
        ConcOp.doBreak 7 2, ConcOp.doBreak 100 3, ConcOp.doSnapshot]).stress_level
      = max 0 (100 - (countBreaks [ConcOp.doBreak 50 1, ConcOp.doSnapshot,
        ConcOp.doBreak 7 2, ConcOp.doBreak 100 3, ConcOp.doSnapshot] : Int)) ∧
    (concRun (State.mk 100 0 0) [ConcOp.doBreak 50 1, ConcOp.doSnapshot,
        ConcOp.doBreak 7 2, ConcOp.doBreak 100 3, ConcOp.doSnapshot]).boss_alert_level
      = 0 ∧
    concObservations (State.mk 100 0 0) [ConcOp.doBreak 50 1, ConcOp.doSnapshot,
        ConcOp.doBreak 7 2, ConcOp.doBreak 100 3, ConcOp.doSnapshot]
      = expectedObservations 100 [ConcOp.doBreak 50 1, ConcOp.doSnapshot,
        ConcOp.doBreak 7 2, ConcOp.doBreak 100 3, ConcOp.doSnapshot]) :=
  ⟨by decide, C8_atomicity [ConcOp.doBreak 50 1, ConcOp.doSnapshot,
    ConcOp.doBreak 7 2, ConcOp.doBreak 100 3, ConcOp.doSnapshot] 0 (by decide)⟩

end ChilLee
